import Mathlib

/-!
Verification of the salamoonder client library.

Strings from the Python source are modelled as `List Char`; fallible Python
code is modelled with `Option`/`Except`; every definition is structural
(fuel-based where needed) so that concrete inputs evaluate inside the kernel.
-/

/-- Strings of the modelled program, as lists of characters. -/
abbrev Str := List Char

/-- Character data of a Lean string literal. -/
def chars (s : String) : Str := s.data

/-- The single-quote character (U+0027). -/
def sqc : Char := Char.ofNat 39

/-- Prepend a character to the first element of a split result.
Used by the model of Python `str.split` while scanning a non-separator
character. -/
def consHead (c : Char) : List Str → List Str
  | [] => [[c]]
  | h :: t => (c :: h) :: t

/-- Fuel-driven worker for the model of Python `str.split(sep)` (non-empty
separator): scans left to right, splitting at each non-overlapping occurrence
of `sep`.  The fuel only serves termination; `pySplit` supplies enough. -/
def pySplitF (sep : Str) : Nat → Str → List Str
  | 0, s => [s]
  | fuel + 1, s =>
    if sep ≠ [] ∧ sep.isPrefixOf s then
      [] :: pySplitF sep fuel (s.drop sep.length)
    else
      match s with
      | [] => [[]]
      | c :: s' => consHead c (pySplitF sep fuel s')

/-- Model of Python `s.split(sep)` for a non-empty separator `sep`. -/
def pySplit (sep s : Str) : List Str := pySplitF sep (s.length + 1) s

theorem consHead_ne_nil (c : Char) (l : List Str) : consHead c l ≠ [] := by
  cases l <;> simp [consHead]

theorem consHead_length (c : Char) (l : List Str) (h : l ≠ []) :
    (consHead c l).length = l.length := by
  cases l with
  | nil => exact absurd rfl h
  | cons a t => simp [consHead]

theorem pySplitF_fuel_eq (sep : Str) :
    ∀ f g s, s.length < f → s.length < g → pySplitF sep f s = pySplitF sep g s := by
  intro f
  induction f with
  | zero => intro g s hf; omega
  | succ f ih =>
    intro g s hf hg
    cases g with
    | zero => omega
    | succ g =>
      simp only [pySplitF]
      by_cases hpre : sep ≠ [] ∧ sep.isPrefixOf s
      · simp only [if_pos hpre]
        have hsep : 1 ≤ sep.length := by
          cases sep with
          | nil => exact absurd rfl hpre.1
          | cons a t => simp
        have hle : sep.length ≤ s.length :=
          (List.isPrefixOf_iff_prefix.mp hpre.2).length_le
        have hdrop : (s.drop sep.length).length = s.length - sep.length := by
          simp
        refine congrArg _ (ih g (s.drop sep.length) ?_ ?_) <;> omega
      · simp only [if_neg hpre]
        cases s with
        | nil => rfl
        | cons c s' =>
          have hs' : s'.length < f := by simp at hf; omega
          have hs'' : s'.length < g := by simp at hg; omega
          show consHead c (pySplitF sep f s') = consHead c (pySplitF sep g s')
          exact congrArg _ (ih g s' hs' hs'')

/-- Recursion equation for `pySplit`. -/
theorem pySplit_eq (sep s : Str) :
    pySplit sep s =
      if sep ≠ [] ∧ sep.isPrefixOf s then
        [] :: pySplit sep (s.drop sep.length)
      else
        match s with
        | [] => [[]]
        | c :: s' => consHead c (pySplit sep s') := by
  show pySplitF sep (s.length + 1) s = _
  simp only [pySplitF]
  by_cases hpre : sep ≠ [] ∧ sep.isPrefixOf s
  · simp only [if_pos hpre]
    have hsep : 1 ≤ sep.length := by
      cases sep with
      | nil => exact absurd rfl hpre.1
      | cons a t => simp
    have hle : sep.length ≤ s.length :=
      (List.isPrefixOf_iff_prefix.mp hpre.2).length_le
    refine congrArg _ (pySplitF_fuel_eq sep _ _ _ ?_ ?_)
    · simp only [List.length_drop]; omega
    · simp only [List.length_drop]; omega
  · simp only [if_neg hpre]
    cases s with
    | nil => rfl
    | cons c s' =>
      show consHead c (pySplitF sep (s'.length + 1) s') = consHead c (pySplit sep s')
      rfl

theorem pySplit_ne_nil (sep s : Str) : pySplit sep s ≠ [] := by
  rw [pySplit_eq]
  by_cases hpre : sep ≠ [] ∧ sep.isPrefixOf s
  · rw [if_pos hpre]; simp
  · rw [if_neg hpre]
    cases s with
    | nil => simp
    | cons c s' => exact consHead_ne_nil c _

/-- If `sep` does not begin at any position strictly inside `pre`, splitting
`pre ++ sep ++ rest` yields `pre` followed by the split of `rest`. -/
theorem pySplit_boundary (sep : Str) (hsep : sep ≠ []) :
    ∀ pre rest,
      (∀ i, i < pre.length → ¬ sep.isPrefixOf (pre.drop i ++ (sep ++ rest))) →
      pySplit sep (pre ++ (sep ++ rest)) = pre :: pySplit sep rest := by
  intro pre
  induction pre with
  | nil =>
    intro rest _
    rw [pySplit_eq]
    have hpre : sep.isPrefixOf ([] ++ (sep ++ rest)) := by
      simp only [List.nil_append]
      exact List.isPrefixOf_iff_prefix.mpr (List.prefix_append sep rest)
    rw [if_pos ⟨hsep, hpre⟩]
    simp only [List.nil_append, List.drop_left]
  | cons c p ih =>
    intro rest hno
    rw [pySplit_eq]
    have h0 : ¬ sep.isPrefixOf ((c :: p) ++ (sep ++ rest)) := by
      have := hno 0 (by simp)
      simpa using this
    rw [if_neg (by intro h; exact h0 h.2)]
    have hrec : pySplit sep (p ++ (sep ++ rest)) = p :: pySplit sep rest := by
      refine ih rest ?_
      intro i hi
      have := hno (i + 1) (by simpa using Nat.succ_lt_succ hi)
      simpa using this
    simp only [List.cons_append]
    rw [hrec]
    rfl

/-- If `sep` does not begin at any position inside `a` (for the given
continuation `b`), splitting `a ++ b` prepends `a` to the head of the split
of `b`. -/
theorem pySplit_prepend (sep : Str) :
    ∀ a b hd tl,
      (∀ i, i < a.length → ¬ sep.isPrefixOf (a.drop i ++ b)) →
      pySplit sep b = hd :: tl →
      pySplit sep (a ++ b) = (a ++ hd) :: tl := by
  intro a
  induction a with
  | nil => intro b hd tl _ hb; simpa using hb
  | cons c p ih =>
    intro b hd tl hno hb
    rw [pySplit_eq]
    have h0 : ¬ sep.isPrefixOf ((c :: p) ++ b) := by
      have := hno 0 (by simp)
      simpa using this
    rw [if_neg (by intro h; exact h0 h.2)]
    have hrec : pySplit sep (p ++ b) = (p ++ hd) :: tl := by
      refine ih b hd tl ?_ hb
      intro i hi
      have := hno (i + 1) (by simpa using Nat.succ_lt_succ hi)
      simpa using this
    simp only [List.cons_append]
    rw [hrec]
    rfl

/-- A separator with no proper border: no nonempty proper suffix-position
overlap of the separator with itself.  (An `abbrev` so that decidability is
found by unfolding.) -/
abbrev Unbordered (sep : Str) : Prop :=
  ∀ l, l < sep.length → 0 < l → sep.drop l ≠ sep.take (sep.length - l)

theorem prefixOf_append_left {sep x y : Str} (h : sep.isPrefixOf (x ++ y))
    (hlen : sep.length ≤ x.length) : sep <+: x := by
  have hp := List.isPrefixOf_iff_prefix.mp h
  have := List.prefix_iff_eq_take.mp hp
  rw [List.take_append_eq_append_take] at this
  rw [Nat.sub_eq_zero_of_le hlen, List.take_zero, List.append_nil] at this
  rw [this]
  exact List.take_prefix _ _

theorem prefixOf_append_decomp {sep t u : Str} (h : sep.isPrefixOf (t ++ u))
    (hlen : t.length ≤ sep.length) :
    t = sep.take t.length ∧ (sep.drop t.length) <+: u := by
  have hp := List.isPrefixOf_iff_prefix.mp h
  have heq : sep = (t ++ u).take sep.length := List.prefix_iff_eq_take.mp hp
  have htk : (t ++ u).take sep.length = t ++ u.take (sep.length - t.length) := by
    rw [List.take_append_eq_append_take, List.take_of_length_le hlen]
  rw [htk] at heq
  constructor
  · rw [heq, List.take_left]
  · rw [heq, List.drop_left]
    exact List.take_prefix _ _

/-- No occurrence of an unbordered separator can begin strictly inside `pre`
when `pre` is followed by `sep` and `sep` is not an infix of `pre`. -/
theorem no_straddle (sep : Str) (hub : Unbordered sep)
    (pre rest : Str) (hinf : ¬ sep <:+: pre) :
    ∀ i, i < pre.length → ¬ sep.isPrefixOf (pre.drop i ++ (sep ++ rest)) := by
  intro i hi h
  set t := pre.drop i with ht
  have htne : t ≠ [] := by
    rw [ht]
    intro hnil
    have := List.drop_eq_nil_iff.mp hnil
    omega
  by_cases hlen : sep.length ≤ t.length
  · have hpt : sep <+: t := prefixOf_append_left h hlen
    exact hinf ((hpt.isInfix).trans ((List.drop_suffix i pre).isInfix))
  · push_neg at hlen
    obtain ⟨-, hdrop⟩ := prefixOf_append_decomp h (le_of_lt hlen)
    have hps : (sep.drop t.length) <+: sep :=
      @prefixOf_append_left (sep.drop t.length) sep rest
        (List.isPrefixOf_iff_prefix.mpr hdrop) (by simp)
    have heq := List.prefix_iff_eq_take.mp hps
    have htpos : 0 < t.length := List.length_pos.mpr htne
    refine hub t.length hlen htpos ?_
    rw [heq]
    congr 1
    simp

theorem pySplit_nil (sep : Str) (hsep : sep ≠ []) : pySplit sep [] = [[]] := by
  rw [pySplit_eq]
  rw [if_neg]
  rintro ⟨-, h2⟩
  exact hsep (List.prefix_nil.mp (List.isPrefixOf_iff_prefix.mp h2))

/-- A non-empty separator occurs in `s` exactly when the split has at least
two fields (mirrors: Python `s.split(sep)[1]` succeeds iff `sep in s`). -/
theorem pySplit_two_iff_contains (sep : Str) (hsep : sep ≠ []) :
    ∀ n s, s.length ≤ n → (sep <:+: s ↔ 2 ≤ (pySplit sep s).length) := by
  intro n
  induction n with
  | zero =>
    intro s hs
    have hnil : s = [] := List.length_eq_zero.mp (Nat.le_zero.mp hs)
    subst hnil
    rw [pySplit_nil sep hsep]
    simp [List.infix_nil, hsep]
  | succ n ih =>
    intro s hs
    rw [pySplit_eq]
    by_cases hpre : sep ≠ [] ∧ sep.isPrefixOf s
    · rw [if_pos hpre]
      constructor
      · intro _
        have := List.length_pos.mpr (pySplit_ne_nil sep (s.drop sep.length))
        simp only [List.length_cons]
        omega
      · intro _
        exact (List.isPrefixOf_iff_prefix.mp hpre.2).isInfix
    · rw [if_neg hpre]
      cases s with
      | nil => simp [List.infix_nil, hsep]
      | cons c s' =>
        have hlen : s'.length ≤ n := by simp at hs; omega
        rw [consHead_length c _ (pySplit_ne_nil sep s'), ← ih s' hlen,
          List.infix_cons_iff]
        have hnp : ¬ sep <+: (c :: s') := fun hp =>
          hpre ⟨hsep, List.isPrefixOf_iff_prefix.mpr hp⟩
        simp [hnp]

/-- JSON values, the result of the model of Python `json.loads`. -/
inductive Json where
  | null
  | bool (b : Bool)
  | num (tok : Str)
  | str (s : Str)
  | arr (elems : List Json)
  | obj (fields : List (Str × Json))

instance : Inhabited Json := ⟨Json.null⟩

/-- Python dict assignment `d[k] = v` on an insertion-ordered association
list: overwrite in place when the key exists, else append. -/
def dictSet (d : List (Str × Json)) (k : Str) (v : Json) : List (Str × Json) :=
  if d.any (fun p => p.1 == k) then
    d.map (fun p => if p.1 == k then (k, v) else p)
  else d ++ [(k, v)]

/-- Python `d.get(k)`: the value at key `k`, if present. -/
def jsonLook (d : List (Str × Json)) (k : Str) : Option Json :=
  (d.find? (fun p => p.1 == k)).map (fun p => p.2)

/-- JSON insignificant whitespace. -/
def jsWs (c : Char) : Bool := c == ' ' || c == '\t' || c == '\n' || c == '\r'

def skipWs (s : Str) : Str := s.dropWhile jsWs

def hexVal (c : Char) : Option Nat :=
  if '0' ≤ c ∧ c ≤ '9' then some (c.toNat - 48)
  else if 'a' ≤ c ∧ c ≤ 'f' then some (c.toNat - 87)
  else if 'A' ≤ c ∧ c ≤ 'F' then some (c.toNat - 55)
  else none

def escChar (e : Char) : Option Char :=
  if e = '"' then some '"'
  else if e = '\\' then some '\\'
  else if e = '/' then some '/'
  else if e = 'b' then some (Char.ofNat 8)
  else if e = 'f' then some (Char.ofNat 12)
  else if e = 'n' then some (Char.ofNat 10)
  else if e = 'r' then some (Char.ofNat 13)
  else if e = 't' then some (Char.ofNat 9)
  else none

/-- Body of a JSON string after the opening quote: returns the decoded
characters and the input remaining after the closing quote.  (Lone
`\uXXXX` escapes are decoded directly; surrogate-pair recombination is not
modelled, it is not exercised by the verified inputs.) -/
def parseJStr : Str → Option (Str × Str)
  | [] => none
  | c :: rest =>
    if c = '"' then some ([], rest)
    else if c = '\\' then
      match rest with
      | 'u' :: h1 :: h2 :: h3 :: h4 :: rest2 =>
        match hexVal h1, hexVal h2, hexVal h3, hexVal h4 with
        | some a, some b, some d, some e =>
          (parseJStr rest2).map
            (fun r => (Char.ofNat (((a * 16 + b) * 16 + d) * 16 + e) :: r.1, r.2))
        | _, _, _, _ => none
      | e :: rest2 =>
        match escChar e with
        | some ec => (parseJStr rest2).map (fun r => (ec :: r.1, r.2))
        | none => none
      | [] => none
    else if c.toNat < 32 then none
    else (parseJStr rest).map (fun r => (c :: r.1, r.2))

/-- Exponent part of a JSON number; appends to the raw token. -/
def parseExp (tok : Str) (s : Str) : Option (Str × Str) :=
  match s with
  | c :: r =>
    if c = 'e' ∨ c = 'E' then
      let p := match r with
        | '+' :: rr => (['+'], rr)
        | '-' :: rr => (['-'], rr)
        | _ => (([] : Str), r)
      let ds := p.2.takeWhile Char.isDigit
      if ds = [] then none
      else some (tok ++ c :: p.1 ++ ds, p.2.dropWhile Char.isDigit)
    else some (tok, s)
  | [] => some (tok, s)

/-- A JSON number: returns the raw token (sign, integer part, optional
fraction and exponent) and the remaining input. -/
def parseJNum (s : Str) : Option (Str × Str) :=
  let p := match s with
    | '-' :: r => ((['-'] : Str), r)
    | _ => (([] : Str), s)
  match p.2 with
  | [] => none
  | c :: _ =>
    if ¬ c.isDigit then none
    else
      let intPart := p.2.takeWhile Char.isDigit
      let rest1 := p.2.dropWhile Char.isDigit
      if 1 < intPart.length ∧ intPart.headD 'x' = '0' then none
      else
        match rest1 with
        | '.' :: r2 =>
          let frac := r2.takeWhile Char.isDigit
          if frac = [] then none
          else parseExp (p.1 ++ intPart ++ '.' :: frac) (r2.dropWhile Char.isDigit)
        | _ => parseExp (p.1 ++ intPart) rest1

def lbr : Char := Char.ofNat 123

def rbr : Char := Char.ofNat 125

/-- Parser mode: a plain value, the members of an object, or the elements of
an array (with the fields or elements parsed so far). -/
inductive PMode where
  | value
  | members (acc : List (Str × Json))
  | elements (acc : List Json)

/-- Fuel-driven recursive-descent JSON parser (model of the stdlib
`json.loads` grammar).  Returns the parsed value and remaining input. -/
def parseStep : Nat → PMode → Str → Option (Json × Str)
  | 0, _, _ => none
  | fuel + 1, PMode.value, s =>
    let s := skipWs s
    match s with
    | [] => none
    | c :: rest =>
      if c = '"' then (parseJStr rest).map (fun r => (Json.str r.1, r.2))
      else if c = lbr then
        match skipWs rest with
        | d :: r3 =>
          if d = rbr then some (Json.obj [], r3)
          else parseStep fuel (PMode.members []) rest
        | [] => none
      else if c = '[' then
        match skipWs rest with
        | d :: r3 =>
          if d = ']' then some (Json.arr [], r3)
          else parseStep fuel (PMode.elements []) rest
        | [] => none
      else if (chars "true").isPrefixOf s then some (Json.bool true, s.drop 4)
      else if (chars "false").isPrefixOf s then some (Json.bool false, s.drop 5)
      else if (chars "null").isPrefixOf s then some (Json.null, s.drop 4)
      else (parseJNum s).map (fun r => (Json.num r.1, r.2))
  | fuel + 1, PMode.members acc, s =>
    match skipWs s with
    | c :: r1 =>
      if c = '"' then
        match parseJStr r1 with
        | none => none
        | some (k, r2) =>
          match skipWs r2 with
          | ':' :: r3 =>
            match parseStep fuel PMode.value r3 with
            | none => none
            | some (v, r4) =>
              match skipWs r4 with
              | ',' :: r5 => parseStep fuel (PMode.members (dictSet acc k v)) r5
              | d :: r5 =>
                if d = rbr then some (Json.obj (dictSet acc k v), r5) else none
              | [] => none
          | _ => none
      else none
    | [] => none
  | fuel + 1, PMode.elements acc, s =>
    match parseStep fuel PMode.value s with
    | none => none
    | some (v, r1) =>
      match skipWs r1 with
      | ',' :: r2 => parseStep fuel (PMode.elements (acc ++ [v])) r2
      | d :: r2 => if d = ']' then some (Json.arr (acc ++ [v]), r2) else none
      | [] => none

/-- Model of Python `json.loads`: parse one value, then require only
whitespace to remain. -/
def json_loads (s : Str) : Option Json :=
  match parseStep (2 * s.length + 2) PMode.value s with
  | some (v, rest) => if skipWs rest = [] then some v else none
  | none => none

/-- Python `str(...)` of an optional JSON value, as applied by `urlencode`
and by f-strings (`None` prints as "None").  Reprs of composite values are
abbreviated; they are not exercised on any verified path. -/
def pyStrJ : Option Json → Str
  | none => chars "None"
  | some Json.null => chars "None"
  | some (Json.bool true) => chars "True"
  | some (Json.bool false) => chars "False"
  | some (Json.num tok) => tok
  | some (Json.str s) => s
  | some (Json.arr _) => chars "<list>"
  | some (Json.obj _) => chars "<dict>"

/-- Characters `urllib.parse.quote_plus` never encodes. -/
def safeChar (c : Char) : Bool :=
  decide (('A' ≤ c ∧ c ≤ 'Z') ∨ ('a' ≤ c ∧ c ≤ 'z') ∨ ('0' ≤ c ∧ c ≤ '9') ∨
    c = '_' ∨ c = '.' ∨ c = '-' ∨ c = '~')

/-- UTF-8 encoding of one scalar value. -/
def utf8Bytes (c : Char) : List Nat :=
  let n := c.toNat
  if n < 128 then [n]
  else if n < 2048 then [192 + n / 64, 128 + n % 64]
  else if n < 65536 then [224 + n / 4096, 128 + (n / 64) % 64, 128 + n % 64]
  else [240 + n / 262144, 128 + (n / 4096) % 64, 128 + (n / 64) % 64, 128 + n % 64]

def hexUDig (n : Nat) : Char := if n < 10 then Char.ofNat (48 + n) else Char.ofNat (55 + n)

def pctByte (b : Nat) : Str := '%' :: hexUDig (b / 16) :: [hexUDig (b % 16)]

/-- Model of `urllib.parse.quote_plus` with empty `safe` set, as used by
`urlencode`: keep unreserved characters, encode space as `+`, percent-encode
the UTF-8 bytes of everything else. -/
def quote_plus (s : Str) : Str :=
  (s.map (fun c =>
    if safeChar c then [c]
    else if c = ' ' then ['+']
    else ((utf8Bytes c).map pctByte).flatten)).flatten

/-- Model of `urllib.parse.urlencode` on an ordered list of string pairs. -/
def urlencode (ps : List (Str × Str)) : Str :=
  List.intercalate (chars "&") (ps.map (fun p => quote_plus p.1 ++ '=' :: quote_plus p.2))

/-- Python exceptions visible in the modelled code. -/
inductive PyErr where
  | runtimeError (msg : Str)
  | attributeError
  | apiError (info : Json)

/-- The `var dd=` marker (datadome.py lines 52 and 104). -/
def ddMarker : Str := chars "var dd="

/-- The closing `script` tag delimiter. -/
def scriptClose : Str := chars "</script>"

def parseFailMsg : Str := chars "Failed to parse object."

/-- `js_object.replace(single-quote, double-quote)` from datadome.py. -/
def fixQuotes (s : Str) : Str := s.map (fun c => if c = sqc then '"' else c)

/-- `html.split("var dd=")[1].split("</script>")[0]` — `none` models the
IndexError when the marker is absent. -/
def ddExtract (html : Str) : Option Str :=
  ((pySplit ddMarker html)[1]?).map (fun seg => (pySplit scriptClose seg).headD [])

/-- The slider query parameters, in source order (datadome.py lines 64-73);
`urlencode` applies `str()` to each value, hence `pyStrJ`. -/
def sliderParams (fields : List (Str × Json)) (cookie referer : Str) :
    List (Str × Str) :=
  [(chars "initialCid", pyStrJ (jsonLook fields (chars "cid"))),
   (chars "hash", pyStrJ (jsonLook fields (chars "hsh"))),
   (chars "cid", cookie),
   (chars "t", pyStrJ (jsonLook fields (chars "t"))),
   (chars "referer", referer),
   (chars "s", pyStrJ (jsonLook fields (chars "s"))),
   (chars "e", pyStrJ (jsonLook fields (chars "e"))),
   (chars "dm", chars "cd")]

/-- The interstitial query parameters, in source order (datadome.py 112-121). -/
def interParams (fields : List (Str × Json)) (cookie referer : Str) :
    List (Str × Str) :=
  [(chars "initialCid", pyStrJ (jsonLook fields (chars "cid"))),
   (chars "hash", pyStrJ (jsonLook fields (chars "hsh"))),
   (chars "cid", cookie),
   (chars "referer", referer),
   (chars "s", pyStrJ (jsonLook fields (chars "s"))),
   (chars "e", pyStrJ (jsonLook fields (chars "e"))),
   (chars "b", pyStrJ (jsonLook fields (chars "b"))),
   (chars "dm", chars "cd")]

def captchaBase : Str := chars "https://geo.captcha-delivery.com/captcha/?"

def interstitialBase : Str := chars "https://geo.captcha-delivery.com/interstitial/?"

/-- The `t == "bv"` check and URL construction of `parse_slider_url`
(datadome.py lines 60-78), given the parsed dict. -/
def sliderFromFields (fields : List (Str × Json)) (datadome_cookie referer : Str) :
    Except PyErr (Option Str) :=
  let url := captchaBase ++ urlencode (sliderParams fields datadome_cookie referer)
  match jsonLook fields (chars "t") with
  | some (Json.str v) =>
    if v = chars "bv" then Except.ok none else Except.ok (some url)
  | _ => Except.ok (some url)

/-- Dispatch on the result of `json.loads` for the slider: a parse failure
re-raises as RuntimeError; a non-dict raises AttributeError at
`parsed.get`. -/
def sliderFromJson (j : Option Json) (datadome_cookie referer : Str) :
    Except PyErr (Option Str) :=
  match j with
  | none => Except.error (PyErr.runtimeError parseFailMsg)
  | some (Json.obj fields) => sliderFromFields fields datadome_cookie referer
  | some _ => Except.error PyErr.attributeError

/-- Model of `Datadome.parse_slider_url` (datadome.py lines 28-78).
`Except.error` models an uncaught exception: the RuntimeError raised when the
marker is missing or the object does not parse, or the AttributeError from
`parsed.get` when the parsed value is not a dict. -/
def parse_slider_url (html datadome_cookie referer : Str) :
    Except PyErr (Option Str) :=
  match ddExtract html with
  | none => Except.error (PyErr.runtimeError parseFailMsg)
  | some seg => sliderFromJson (json_loads (fixQuotes seg)) datadome_cookie referer

/-- Dispatch on the result of `json.loads` for the interstitial URL
(datadome.py lines 103-126). -/
def interFromJson (j : Option Json) (datadome_cookie referer : Str) :
    Except PyErr Str :=
  match j with
  | none => Except.error (PyErr.runtimeError parseFailMsg)
  | some (Json.obj fields) =>
    Except.ok (interstitialBase ++ urlencode (interParams fields datadome_cookie referer))
  | some _ => Except.error PyErr.attributeError

/-- Model of `Datadome.parse_interstitial_url` (datadome.py lines 80-126). -/
def parse_interstitial_url (html datadome_cookie referer : Str) :
    Except PyErr Str :=
  match ddExtract html with
  | none => Except.error (PyErr.runtimeError parseFailMsg)
  | some seg => interFromJson (json_loads (fixQuotes seg)) datadome_cookie referer

/-- The dd object of the round-trip test in the spec, with single quotes
(built by substitution to keep literals quote-free). -/
def ddObjSrc : Str :=
  (chars "\x7b!cid!:!C!,!hsh!:!H!,!t!:!T!,!s!:1,!e!:!E!\x7d").map
    (fun c => if c = '!' then sqc else c)

example : json_loads (fixQuotes ddObjSrc) =
    some (Json.obj
      [(chars "cid", Json.str (chars "C")),
       (chars "hsh", Json.str (chars "H")),
       (chars "t", Json.str (chars "T")),
       (chars "s", Json.num (chars "1")),
       (chars "e", Json.str (chars "E"))]) := by rfl

example :
    parse_slider_url (ddMarker ++ ddObjSrc ++ scriptClose) (chars "D") (chars "https://x/") =
      Except.ok (some (chars
        "https://geo.captcha-delivery.com/captcha/?initialCid=C&hash=H&cid=D&t=T&referer=https%3A%2F%2Fx%2F&s=1&e=E&dm=cd")) := by
  rfl

theorem noPrefix_of_parts {sep t : Str} (h1 : ¬ sep <+: t) (h2 : ¬ t <+: sep)
    (b : Str) : ¬ sep.isPrefixOf (t ++ b) := by
  intro h
  by_cases hlen : sep.length ≤ t.length
  · exact h1 (prefixOf_append_left h hlen)
  · push_neg at hlen
    obtain ⟨heq, -⟩ := prefixOf_append_decomp h (le_of_lt hlen)
    exact h2 (heq ▸ List.take_prefix _ _)

/-- The URL the spec's round-trip test expects. -/
def sliderRoundtripUrl : Str := chars
  "https://geo.captcha-delivery.com/captcha/?initialCid=C&hash=H&cid=D&t=T&referer=https%3A%2F%2Fx%2F&s=1&e=E&dm=cd"

/-- Claim C4: for every html that embeds the test dd-object (first marker
occurrence at the boundary shown, i.e. the prefix does not itself contain
`var dd=`), `parse_slider_url` with cookie `D` and referer `https://x/`
returns exactly the fixed captcha URL with keys in the order
initialCid, hash, cid, t, referer, s, e, dm and values C, H, D, T, the
percent-encoded referer, "1", E, "cd". -/
theorem parse_slider_url_roundtrip (pre post : Str) (hpre : ¬ ddMarker <:+: pre) :
    parse_slider_url (pre ++ (ddMarker ++ (ddObjSrc ++ (scriptClose ++ post))))
      (chars "D") (chars "https://x/") = Except.ok (some sliderRoundtripUrl) := by
  have hub : Unbordered ddMarker := by decide
  have h1 : pySplit ddMarker (pre ++ (ddMarker ++ (ddObjSrc ++ (scriptClose ++ post))))
      = pre :: pySplit ddMarker (ddObjSrc ++ (scriptClose ++ post)) :=
    pySplit_boundary ddMarker (by decide) pre _ (no_straddle ddMarker hub pre _ hpre)
  obtain ⟨hd, tl, hsplit⟩ : ∃ hd tl, pySplit ddMarker post = hd :: tl := by
    cases hs : pySplit ddMarker post with
    | nil => exact absurd hs (pySplit_ne_nil _ _)
    | cons h t => exact ⟨h, t, rfl⟩
  have hparts : ∀ i, i < (ddObjSrc ++ scriptClose).length →
      (¬ ddMarker <+: ((ddObjSrc ++ scriptClose).drop i) ∧
       ¬ ((ddObjSrc ++ scriptClose).drop i) <+: ddMarker) := by decide
  have hnohit : ∀ i, i < (ddObjSrc ++ scriptClose).length →
      ¬ ddMarker.isPrefixOf ((ddObjSrc ++ scriptClose).drop i ++ post) := by
    intro i hi
    exact noPrefix_of_parts (hparts i hi).1 (hparts i hi).2 post
  have h2 : pySplit ddMarker ((ddObjSrc ++ scriptClose) ++ post)
      = ((ddObjSrc ++ scriptClose) ++ hd) :: tl :=
    pySplit_prepend ddMarker _ post hd tl hnohit hsplit
  have h3 : pySplit scriptClose (ddObjSrc ++ (scriptClose ++ hd))
      = ddObjSrc :: pySplit scriptClose hd :=
    pySplit_boundary scriptClose (by decide) ddObjSrc hd
      (no_straddle scriptClose (by decide) ddObjSrc hd (by decide))
  have hdd : ddExtract (pre ++ (ddMarker ++ (ddObjSrc ++ (scriptClose ++ post))))
      = some ddObjSrc := by
    unfold ddExtract
    rw [h1, show ddObjSrc ++ (scriptClose ++ post) = (ddObjSrc ++ scriptClose) ++ post from
      (List.append_assoc _ _ _).symm, h2]
    simp only [List.getElem?_cons_succ, List.getElem?_cons_zero]
    show some ((pySplit scriptClose ((ddObjSrc ++ scriptClose) ++ hd)).headD []) = some ddObjSrc
    rw [List.append_assoc, h3]
    rfl
  unfold parse_slider_url
  rw [hdd]
  rfl

theorem parse_slider_url_roundtrip_witness :
    (¬ ddMarker <:+: chars "<html><script>") ∧
    parse_slider_url
      ((chars "<html><script>") ++ (ddMarker ++ (ddObjSrc ++ (scriptClose ++ chars "<body>"))))
      (chars "D") (chars "https://x/") = Except.ok (some sliderRoundtripUrl) :=
  ⟨by decide, parse_slider_url_roundtrip (chars "<html><script>") (chars "<body>") (by decide)⟩

/-- `html.split("var dd=")[1]` fails exactly when the marker does not occur. -/
theorem ddExtract_none_iff (html : Str) :
    ddExtract html = none ↔ ¬ ddMarker <:+: html := by
  unfold ddExtract
  rw [Option.map_eq_none', List.getElem?_eq_none_iff,
    pySplit_two_iff_contains ddMarker (by decide) html.length html (le_refl _)]
  omega


theorem sliderFromFields_isOk (fields : List (Str × Json)) (c r : Str) :
    ∃ o, sliderFromFields fields c r = Except.ok o := by
  unfold sliderFromFields
  cases hlook : jsonLook fields (chars "t") with
  | none => exact ⟨_, rfl⟩
  | some jv =>
    cases jv with
    | str v =>
      by_cases hv : v = chars "bv"
      · exact ⟨none, by simp [hv]⟩
      · exact ⟨some (captchaBase ++ urlencode (sliderParams fields c r)), by simp [hv]⟩
    | null => exact ⟨_, rfl⟩
    | bool b => exact ⟨_, rfl⟩
    | num tok => exact ⟨_, rfl⟩
    | arr es => exact ⟨_, rfl⟩
    | obj fs => exact ⟨_, rfl⟩

theorem sliderFromJson_error_iff (J : Option Json) (c r : Str) :
    sliderFromJson J c r = Except.error (PyErr.runtimeError parseFailMsg) ↔ J = none := by
  cases J with
  | none => simp [sliderFromJson]
  | some j =>
    cases j with
    | obj fields =>
      obtain ⟨o, ho⟩ := sliderFromFields_isOk fields c r
      simp [sliderFromJson, ho]
    | null => simp [sliderFromJson]
    | bool b => simp [sliderFromJson]
    | num tok => simp [sliderFromJson]
    | str s => simp [sliderFromJson]
    | arr es => simp [sliderFromJson]

theorem interFromJson_error_iff (J : Option Json) (c r : Str) :
    interFromJson J c r = Except.error (PyErr.runtimeError parseFailMsg) ↔ J = none := by
  cases J with
  | none => simp [interFromJson]
  | some j =>
    cases j with
    | obj fields => simp [interFromJson]
    | null => simp [interFromJson]
    | bool b => simp [interFromJson]
    | num tok => simp [interFromJson]
    | str s => simp [interFromJson]
    | arr es => simp [interFromJson]

theorem sliderFromFields_ok_none_iff (fields : List (Str × Json)) (c r : Str) :
    sliderFromFields fields c r = Except.ok none ↔
      jsonLook fields (chars "t") = some (Json.str (chars "bv")) := by
  unfold sliderFromFields
  cases hlook : jsonLook fields (chars "t") with
  | none => simp
  | some jv =>
    cases jv with
    | str v =>
      by_cases hv : v = chars "bv"
      · subst hv; simp
      · simp [hv]
    | null => simp
    | bool b => simp
    | num tok => simp
    | arr es => simp
    | obj fs => simp

theorem sliderFromJson_ok_none_iff (J : Option Json) (c r : Str) :
    sliderFromJson J c r = Except.ok none ↔
      ∃ fields, J = some (Json.obj fields) ∧
        jsonLook fields (chars "t") = some (Json.str (chars "bv")) := by
  cases J with
  | none => simp [sliderFromJson]
  | some j =>
    cases j with
    | obj fields => simp [sliderFromJson, sliderFromFields_ok_none_iff]
    | null => simp [sliderFromJson]
    | bool b => simp [sliderFromJson]
    | num tok => simp [sliderFromJson]
    | str s => simp [sliderFromJson]
    | arr es => simp [sliderFromJson]

/-- Claim C5: each DataDome parse function raises the RuntimeError
("Failed to parse object.") iff the `var dd=` marker is absent from the html
or the extracted object, after quote normalization, does not parse as JSON;
and `parse_slider_url` returns None (without raising) exactly when the
successfully parsed object is a dict whose `t` field is the string `bv`. -/
theorem datadome_parse_error_conditions (html cookie referer : Str) :
    (parse_slider_url html cookie referer = Except.error (PyErr.runtimeError parseFailMsg)
      ↔ (¬ ddMarker <:+: html ∨
          ∃ seg, ddExtract html = some seg ∧ json_loads (fixQuotes seg) = none))
  ∧ (parse_interstitial_url html cookie referer = Except.error (PyErr.runtimeError parseFailMsg)
      ↔ (¬ ddMarker <:+: html ∨
          ∃ seg, ddExtract html = some seg ∧ json_loads (fixQuotes seg) = none))
  ∧ (parse_slider_url html cookie referer = Except.ok none
      ↔ ∃ seg fields, ddExtract html = some seg ∧
          json_loads (fixQuotes seg) = some (Json.obj fields) ∧
          jsonLook fields (chars "t") = some (Json.str (chars "bv"))) := by
  cases hdd : ddExtract html with
  | none =>
    have hninf : ¬ ddMarker <:+: html := (ddExtract_none_iff html).mp hdd
    have hs : parse_slider_url html cookie referer
        = Except.error (PyErr.runtimeError parseFailMsg) := by
      unfold parse_slider_url; rw [hdd]
    have hi : parse_interstitial_url html cookie referer
        = Except.error (PyErr.runtimeError parseFailMsg) := by
      unfold parse_interstitial_url; rw [hdd]
    refine ⟨?_, ?_, ?_⟩
    · rw [hs]; exact iff_of_true rfl (Or.inl hninf)
    · rw [hi]; exact iff_of_true rfl (Or.inl hninf)
    · rw [hs]
      refine iff_of_false (fun h => Except.noConfusion h) ?_
      rintro ⟨seg, fields, hseg, -⟩
      exact Option.noConfusion hseg
  | some seg =>
    have hinf : ddMarker <:+: html := by
      by_contra h
      rw [← ddExtract_none_iff html, hdd] at h
      exact Option.noConfusion h
    have hs : parse_slider_url html cookie referer
        = sliderFromJson (json_loads (fixQuotes seg)) cookie referer := by
      unfold parse_slider_url; rw [hdd]
    have hi : parse_interstitial_url html cookie referer
        = interFromJson (json_loads (fixQuotes seg)) cookie referer := by
      unfold parse_interstitial_url; rw [hdd]
    have hrs : (¬ ddMarker <:+: html ∨
        ∃ seg', (some seg : Option Str) = some seg' ∧ json_loads (fixQuotes seg') = none)
        ↔ json_loads (fixQuotes seg) = none := by
      constructor
      · rintro (h | ⟨seg', hseg, hl⟩)
        · exact absurd hinf h
        · injection hseg with he
          subst he
          exact hl
      · intro h
        exact Or.inr ⟨seg, rfl, h⟩
    have hrn : (∃ seg' fields, (some seg : Option Str) = some seg' ∧
        json_loads (fixQuotes seg') = some (Json.obj fields) ∧
        jsonLook fields (chars "t") = some (Json.str (chars "bv")))
        ↔ ∃ fields, json_loads (fixQuotes seg) = some (Json.obj fields) ∧
            jsonLook fields (chars "t") = some (Json.str (chars "bv")) := by
      constructor
      · rintro ⟨seg', fields, hseg, hl, hb⟩
        injection hseg with he
        subst he
        exact ⟨fields, hl, hb⟩
      · rintro ⟨fields, hl, hb⟩
        exact ⟨seg, fields, rfl, hl, hb⟩
    rw [hs, hi, hrs, hrn]
    exact ⟨sliderFromJson_error_iff _ _ _, interFromJson_error_iff _ _ _,
      sliderFromJson_ok_none_iff _ _ _⟩

/-- `k in kwargs` (Python keyword-argument membership test). -/
def kwHas (kwargs : List (Str × Json)) (k : Str) : Bool :=
  kwargs.any (fun p => p.1 == k)

/-- `kwargs.get(k)`: the supplied value, or Python `None` (modelled as
`Json.null`) when the keyword was not passed. -/
def kwGet (kwargs : List (Str × Json)) (k : Str) : Json :=
  (((kwargs.find? (fun p => p.1 == k)).map (fun p => p.2))).getD Json.null

/-- Model of the `task` dict built by `Tasks.createTask` (tasks.py lines
46-114): starts as a dict with the `type` key and is extended per task type,
mirroring the source's if/elif chain statement by statement. -/
def createTaskPayload (task_type : Str) (kwargs : List (Str × Json)) :
    List (Str × Json) :=
  let task : List (Str × Json) := [(chars "type", Json.str task_type)]
  if task_type == chars "KasadaCaptchaSolver" then
    let task := dictSet task (chars "pjs") (kwGet kwargs (chars "pjs_url"))
    let task := dictSet task (chars "cdOnly") (kwGet kwargs (chars "cd_only"))
    task
  else if task_type == chars "Twitch_PublicIntegrity" then
    let task := dictSet task (chars "access_token") (kwGet kwargs (chars "access_token"))
    let task := dictSet task (chars "proxy") (kwGet kwargs (chars "proxy"))
    let task := if kwHas kwargs (chars "device_id") then
        dictSet task (chars "device_id") (kwGet kwargs (chars "device_id")) else task
    let task := if kwHas kwargs (chars "client_id") then
        dictSet task (chars "client_id") (kwGet kwargs (chars "client_id")) else task
    task
  else if task_type == chars "IncapsulaReese84Solver" then
    let task := dictSet task (chars "type") (Json.str (chars "IncapsulaReese84Solver"))
    let task := dictSet task (chars "website") (kwGet kwargs (chars "website"))
    let task := dictSet task (chars "submit_payload") (kwGet kwargs (chars "submit_payload"))
    let task := if kwHas kwargs (chars "user_agent") then
        dictSet task (chars "user_agent") (kwGet kwargs (chars "user_agent")) else task
    task
  else if task_type == chars "IncapsulaUTMVCSolver" then
    let task := dictSet task (chars "type") (Json.str (chars "IncapsulaUTMVCSolver"))
    let task := dictSet task (chars "website") (kwGet kwargs (chars "website"))
    let task := if kwHas kwargs (chars "user_agent") then
        dictSet task (chars "user_agent") (kwGet kwargs (chars "user_agent")) else task
    task
  else if task_type == chars "AkamaiWebSensorSolver" then
    let task := dictSet task (chars "type") (Json.str (chars "AkamaiWebSensorSolver"))
    let task := dictSet task (chars "url") (kwGet kwargs (chars "url"))
    let task := dictSet task (chars "abck") (kwGet kwargs (chars "abck"))
    let task := dictSet task (chars "bmsz") (kwGet kwargs (chars "bmsz"))
    let task := dictSet task (chars "script") (kwGet kwargs (chars "script"))
    let task := dictSet task (chars "sensor_url") (kwGet kwargs (chars "sensor_url"))
    let task := dictSet task (chars "count") (kwGet kwargs (chars "count"))
    let task := dictSet task (chars "data") (kwGet kwargs (chars "data"))
    let task := if kwHas kwargs (chars "user_agent") then
        dictSet task (chars "user_agent") (kwGet kwargs (chars "user_agent")) else task
    task
  else if task_type == chars "AkamaiSBSDSolver" then
    let task := dictSet task (chars "type") (Json.str (chars "AkamaiSBSDSolver"))
    let task := dictSet task (chars "url") (kwGet kwargs (chars "url"))
    let task := dictSet task (chars "cookie") (kwGet kwargs (chars "cookie"))
    let task := dictSet task (chars "sbsd_url") (kwGet kwargs (chars "sbsd_url"))
    let task := dictSet task (chars "script") (kwGet kwargs (chars "script"))
    let task := if kwHas kwargs (chars "user_agent") then
        dictSet task (chars "user_agent") (kwGet kwargs (chars "user_agent")) else task
    task
  else if task_type == chars "DataDomeSliderSolver" then
    let task := dictSet task (chars "type") (Json.str (chars "DataDomeSliderSolver"))
    let task := dictSet task (chars "captcha_url") (kwGet kwargs (chars "captcha_url"))
    let task := if kwHas kwargs (chars "user_agent") then
        dictSet task (chars "user_agent") (kwGet kwargs (chars "user_agent")) else task
    let task := dictSet task (chars "country_code") (kwGet kwargs (chars "country_code"))
    task
  else if task_type == chars "DataDomeInterstitialSolver" then
    let task := dictSet task (chars "type") (Json.str (chars "DataDomeInterstitialSolver"))
    let task := dictSet task (chars "captcha_url") (kwGet kwargs (chars "captcha_url"))
    let task := if kwHas kwargs (chars "user_agent") then
        dictSet task (chars "user_agent") (kwGet kwargs (chars "user_agent")) else task
    let task := dictSet task (chars "country_code") (kwGet kwargs (chars "country_code"))
    task
  else task

/-- Python truthiness of a JSON value (numbers are truthy when they contain
a nonzero digit; exact only for values without pathological exponents, which
do not occur on verified paths). -/
def jsonTruthy : Json → Bool
  | Json.null => false
  | Json.bool b => b
  | Json.num tok => tok.any (fun c => decide ('1' ≤ c ∧ c ≤ '9'))
  | Json.str s => ¬ s.isEmpty
  | Json.arr es => ¬ es.isEmpty
  | Json.obj fs => ¬ fs.isEmpty

/-- Python `a or b` on an optional dict entry: keep the entry when truthy. -/
def orDefault (v : Option Json) (d : Json) : Json :=
  match v with
  | some x => if jsonTruthy x then x else d
  | none => d

/-- `data.get("error_description") or data.get("error") or "Request failed"`
(client.py line 88). -/
def errMsgFrom (data : List (Str × Json)) : Json :=
  orDefault (jsonLook data (chars "error_description"))
    (orDefault (jsonLook data (chars "error")) (Json.str (chars "Request failed")))

def natToChars (n : Nat) : Str := (Nat.repr n).data

/-- A remote HTTP response as seen after `resp.json()` is attempted:
`body = none` models a JSON decode failure (ValueError). -/
structure HttpResp where
  status_code : Nat
  body : Option Json

/-- Error-status handling of `Client._post` (client.py lines 87-93), given a
parsed body. -/
def client_post_body (status : Nat) (data : Json) : Except PyErr Json :=
  if 400 ≤ status then
    match data with
    | Json.obj fields => Except.error (PyErr.apiError (errMsgFrom fields))
    | _ => Except.error PyErr.attributeError
  else Except.ok data

/-- Response handling of `Client._post` (client.py lines 79-93): a
non-parseable body raises APIError; an HTTP status of 400 or more raises
APIError with the message extracted from the body; otherwise the parsed
body is returned.  (The credential guard of lines 58-60 precedes any
request and is independent of the response; no claim concerns it.) -/
def client_post (resp : HttpResp) : Except PyErr Json :=
  match resp.body with
  | none => Except.error (PyErr.apiError (Json.str
      (chars "Invalid response from API (" ++ natToChars resp.status_code ++ [')'])))
  | some data => client_post_body resp.status_code data

/-- `task_id = data.get("taskId"); return task_id` (tasks.py lines 119-122):
no validation — a success body without `taskId` yields Python `None`. -/
def createTask_onPost (res : Except PyErr Json) : Except PyErr (Option Json) :=
  match res with
  | Except.error e => Except.error e
  | Except.ok (Json.obj fields) => Except.ok (jsonLook fields (chars "taskId"))
  | Except.ok _ => Except.error PyErr.attributeError

/-- One call of `Tasks.createTask`: the task payload that is posted, and the
returned task id (or raised error). -/
structure CreateTaskCall where
  payload : List (Str × Json)
  result : Except PyErr (Option Json)

/-- Model of `Tasks.createTask` (tasks.py lines 20-122) against a given
remote response. -/
def createTask (task_type : Str) (kwargs : List (Str × Json)) (resp : HttpResp) :
    CreateTaskCall :=
  ⟨createTaskPayload task_type kwargs, createTask_onPost (client_post resp)⟩

/-- One `getTaskResult` response body, restricted to the fields the loop
reads (`data.get("status")`, `data.get("solution")`). -/
structure TaskResp where
  status : Option Json
  solution : Option Json

/-- `data.get("status") == S` for a string S (Python `==` between the JSON
value and a str is true only for an equal string). -/
def statusIs (st : Option Json) (s : Str) : Bool :=
  match st with
  | some (Json.str v) => v == s
  | _ => false

inductive PollOutcome where
  | solved (sol : Option Json)
  | failed (msg : Str)
  | polling

/-- Observable behaviour of the polling loop on a finite prefix of remote
responses: the outcome (`polling` means every response was consumed and the
loop is about to issue the next request), the number of requests issued and
the number of sleeps performed. -/
structure PollTrace where
  outcome : PollOutcome
  requests : Nat
  sleeps : Nat

def pendingS : Str := chars "PENDING"

def readyS : Str := chars "ready"

/-- `f"Unexpected task status: {status}"` (tasks.py line 159). -/
def unexpectedStatusMsg (st : Option Json) : Str :=
  chars "Unexpected task status: " ++ pyStrJ st

/-- Model of the `while True` loop of `Tasks.getTaskResult` (tasks.py lines
143-159) run against a list of successive response bodies. -/
def getTaskResult : List TaskResp → PollTrace
  | [] => ⟨PollOutcome.polling, 0, 0⟩
  | r :: rs =>
    if statusIs r.status pendingS then
      let t := getTaskResult rs
      ⟨t.outcome, t.requests + 1, t.sleeps + 1⟩
    else if statusIs r.status readyS then
      ⟨PollOutcome.solved r.solution, 1, 0⟩
    else
      ⟨PollOutcome.failed (unexpectedStatusMsg r.status), 1, 0⟩

theorem statusIs_ready_not_pending (st : Option Json)
    (h : statusIs st readyS = true) : statusIs st pendingS = false := by
  cases st with
  | none => simp [statusIs] at h
  | some j =>
    cases j with
    | str v =>
      simp only [statusIs, beq_iff_eq] at h
      subst h
      decide
    | null => simp [statusIs] at h
    | bool b => simp [statusIs] at h
    | num tok => simp [statusIs] at h
    | arr es => simp [statusIs] at h
    | obj fs => simp [statusIs] at h

/-- A run of all-PENDING responses adds one request and one sleep per
response in front of whatever the rest of the run does. -/
theorem getTaskResult_pending_run :
    ∀ (pre l : List TaskResp), (∀ x ∈ pre, statusIs x.status pendingS) →
      getTaskResult (pre ++ l) =
        ⟨(getTaskResult l).outcome, (getTaskResult l).requests + pre.length,
         (getTaskResult l).sleeps + pre.length⟩ := by
  intro pre
  induction pre with
  | nil => intro l _; simp
  | cons x p ih =>
    intro l h
    have hx : statusIs x.status pendingS := h x (by simp)
    have hp : ∀ y ∈ p, statusIs y.status pendingS :=
      fun y hy => h y (List.mem_cons_of_mem _ hy)
    rw [List.cons_append]
    simp only [getTaskResult, hx, if_true, ih l hp]
    simp [Nat.add_assoc]

/-- Claim C1: on the first non-PENDING response after a run of PENDING
responses, the loop returns the `solution` field immediately if the status
is `ready` (no further sleep or request), and otherwise raises APIError
carrying the status string, again with no further sleep or request; PENDING
responses each cost exactly one sleep and one request. -/
theorem getTaskResult_first_terminal (pre : List TaskResp) (r : TaskResp)
    (rs : List TaskResp) (hpre : ∀ x ∈ pre, statusIs x.status pendingS) :
    (statusIs r.status readyS = true →
      getTaskResult (pre ++ r :: rs) =
        ⟨PollOutcome.solved r.solution, pre.length + 1, pre.length⟩)
  ∧ (statusIs r.status pendingS = false → statusIs r.status readyS = false →
      getTaskResult (pre ++ r :: rs) =
        ⟨PollOutcome.failed (unexpectedStatusMsg r.status), pre.length + 1, pre.length⟩)
  ∧ (∀ s, r.status = some (Json.str s) → s ≠ pendingS → s ≠ readyS →
      getTaskResult (pre ++ r :: rs) =
        ⟨PollOutcome.failed (chars "Unexpected task status: " ++ s),
         pre.length + 1, pre.length⟩) := by
  have hp := getTaskResult_pending_run pre (r :: rs) hpre
  refine ⟨?_, ?_, ?_⟩
  · intro hready
    have hnp := statusIs_ready_not_pending r.status hready
    rw [hp]
    simp only [getTaskResult, hnp, hready]
    simp [Nat.add_comm]
  · intro hnp hnr
    rw [hp]
    simp only [getTaskResult, hnp, hnr]
    simp [Nat.add_comm]
  · intro s hst hsp hsr
    have hnp : statusIs r.status pendingS = false := by
      rw [hst]; simp only [statusIs, beq_eq_false_iff_ne, ne_eq]; exact hsp
    have hnr : statusIs r.status readyS = false := by
      rw [hst]; simp only [statusIs, beq_eq_false_iff_ne, ne_eq]; exact hsr
    rw [hp]
    simp only [getTaskResult, hnp, hnr]
    simp [unexpectedStatusMsg, pyStrJ, hst, Nat.add_comm]

/-- A PENDING response used by the concrete polling witnesses. -/
def pendResp : TaskResp := ⟨some (Json.str (chars "PENDING")), none⟩

theorem getTaskResult_first_terminal_witness :
    getTaskResult
        [pendResp, ⟨some (Json.str (chars "ready")), some (Json.str (chars "ok"))⟩]
      = ⟨PollOutcome.solved (some (Json.str (chars "ok"))), 2, 1⟩ :=
  (getTaskResult_first_terminal [pendResp]
      ⟨some (Json.str (chars "ready")), some (Json.str (chars "ok"))⟩ []
      (by decide)).1 (by decide)

/-- Claim C7: the polling loop has no attempt cap: after consuming any
number of all-PENDING responses it has neither returned nor raised
(outcome `polling`) and the next response, whatever it is, costs an
(n+1)-th request; the loop can only finish on a non-PENDING response. -/
theorem getTaskResult_unbounded_polling (rs : List TaskResp) :
    ((∀ x ∈ rs, statusIs x.status pendingS) →
      (getTaskResult rs = ⟨PollOutcome.polling, rs.length, rs.length⟩
        ∧ ∀ r, (getTaskResult (rs ++ [r])).requests = rs.length + 1))
  ∧ ((getTaskResult rs).outcome ≠ PollOutcome.polling →
      ∃ x ∈ rs, statusIs x.status pendingS = false) := by
  constructor
  · intro h
    constructor
    · have := getTaskResult_pending_run rs [] h
      simpa [getTaskResult] using this
    · intro r
      rw [getTaskResult_pending_run rs [r] h]
      have h1 : (getTaskResult [r]).requests = 1 := by
        by_cases hp : statusIs r.status pendingS
        · simp [getTaskResult, hp]
        · by_cases hr : statusIs r.status readyS
          · simp [getTaskResult, hp, hr]
          · simp [getTaskResult, hp, hr]
      simp [h1, Nat.add_comm]
  · intro h
    by_contra hc
    push_neg at hc
    have hall : ∀ x ∈ rs, statusIs x.status pendingS := by
      intro x hx
      have := hc x hx
      simpa using this
    have heq := getTaskResult_pending_run rs [] hall
    simp only [List.append_nil] at heq
    rw [heq] at h
    exact h rfl

theorem getTaskResult_unbounded_polling_witness :
    getTaskResult [pendResp, pendResp, pendResp]
      = ⟨PollOutcome.polling, 3, 3⟩ :=
  ((getTaskResult_unbounded_polling [pendResp, pendResp, pendResp]).1 (by decide)).1

/-- Claim C2 (amended): for every task type of the table and any keyword
arguments, the payload contains exactly the `type` key, the required fields
of that type (always present, null when the caller omitted them) and the
conditionally-added optional fields (`device_id`, `client_id`, `user_agent`)
exactly when supplied — except that KasadaCaptchaSolver's optional `cdOnly`
is unconditionally included (null when `cd_only` was not supplied). -/
theorem createTask_payload_fields (kwargs : List (Str × Json)) :
    ((createTaskPayload (chars "KasadaCaptchaSolver") kwargs).map Prod.fst
      = [chars "type", chars "pjs", chars "cdOnly"])
  ∧ ((createTaskPayload (chars "Twitch_PublicIntegrity") kwargs).map Prod.fst
      = [chars "type", chars "access_token", chars "proxy"]
        ++ (if kwHas kwargs (chars "device_id") then [chars "device_id"] else [])
        ++ (if kwHas kwargs (chars "client_id") then [chars "client_id"] else []))
  ∧ ((createTaskPayload (chars "IncapsulaReese84Solver") kwargs).map Prod.fst
      = [chars "type", chars "website", chars "submit_payload"]
        ++ (if kwHas kwargs (chars "user_agent") then [chars "user_agent"] else []))
  ∧ ((createTaskPayload (chars "IncapsulaUTMVCSolver") kwargs).map Prod.fst
      = [chars "type", chars "website"]
        ++ (if kwHas kwargs (chars "user_agent") then [chars "user_agent"] else []))
  ∧ ((createTaskPayload (chars "AkamaiWebSensorSolver") kwargs).map Prod.fst
      = [chars "type", chars "url", chars "abck", chars "bmsz", chars "script",
         chars "sensor_url", chars "count", chars "data"]
        ++ (if kwHas kwargs (chars "user_agent") then [chars "user_agent"] else []))
  ∧ ((createTaskPayload (chars "AkamaiSBSDSolver") kwargs).map Prod.fst
      = [chars "type", chars "url", chars "cookie", chars "sbsd_url", chars "script"]
        ++ (if kwHas kwargs (chars "user_agent") then [chars "user_agent"] else []))
  ∧ ((createTaskPayload (chars "DataDomeSliderSolver") kwargs).map Prod.fst
      = [chars "type", chars "captcha_url"]
        ++ (if kwHas kwargs (chars "user_agent") then [chars "user_agent"] else [])
        ++ [chars "country_code"])
  ∧ ((createTaskPayload (chars "DataDomeInterstitialSolver") kwargs).map Prod.fst
      = [chars "type", chars "captcha_url"]
        ++ (if kwHas kwargs (chars "user_agent") then [chars "user_agent"] else [])
        ++ [chars "country_code"]) := by
  refine ⟨rfl, ?_, ?_, ?_, ?_, ?_, ?_, ?_⟩
  · by_cases h1 : kwHas kwargs (chars "device_id") <;>
      by_cases h2 : kwHas kwargs (chars "client_id") <;>
      simp only [createTaskPayload, h1, h2, if_true, if_false] <;> rfl
  all_goals
    by_cases h1 : kwHas kwargs (chars "user_agent") <;>
      simp only [createTaskPayload, h1, if_true, if_false] <;> rfl

/-- Claim C2 counterexample: with only `pjs_url` supplied (no `cd_only`),
the Kasada payload still contains a `cdOnly` field, as a null. -/
theorem createTask_kasada_cdOnly_always_sent :
    kwHas [(chars "pjs_url", Json.str (chars "u"))] (chars "cd_only") = false
  ∧ (createTaskPayload (chars "KasadaCaptchaSolver")
      [(chars "pjs_url", Json.str (chars "u"))]).map Prod.fst
      = [chars "type", chars "pjs", chars "cdOnly"]
  ∧ jsonLook (createTaskPayload (chars "KasadaCaptchaSolver")
      [(chars "pjs_url", Json.str (chars "u"))]) (chars "cdOnly") = some Json.null :=
  ⟨rfl, rfl, rfl⟩

/-- Claim C10: `createTask` performs no validation of a success response —
any success-status response whose parsed dict body lacks `taskId` makes it
return Python None rather than raise. -/
theorem createTask_missing_taskId_returns_none (task_type : Str)
    (kwargs : List (Str × Json)) (resp : HttpResp) (fields : List (Str × Json))
    (hstatus : resp.status_code < 400) (hbody : resp.body = some (Json.obj fields))
    (hno : jsonLook fields (chars "taskId") = none) :
    (createTask task_type kwargs resp).result = Except.ok none := by
  show createTask_onPost (client_post resp) = Except.ok none
  unfold client_post
  rw [hbody]
  show createTask_onPost (client_post_body resp.status_code (Json.obj fields))
      = Except.ok none
  unfold client_post_body
  rw [if_neg (by omega)]
  show Except.ok (jsonLook fields (chars "taskId")) = Except.ok none
  rw [hno]

theorem createTask_missing_taskId_witness :
    (createTask (chars "KasadaCaptchaSolver") []
        ⟨200, some (Json.obj [(chars "status", Json.str (chars "ok"))])⟩).result
      = Except.ok none :=
  createTask_missing_taskId_returns_none (chars "KasadaCaptchaSolver") []
    ⟨200, some (Json.obj [(chars "status", Json.str (chars "ok"))])⟩
    [(chars "status", Json.str (chars "ok"))] (by decide) rfl rfl

/-- An HTTP response from the target site as the extractors observe it. -/
structure Resp where
  status_code : Nat
  text : Str
  cookies : List (Str × Str)

/-- The shared Transport Client session state (headers and cookie jar). -/
structure Session where
  headers : List (Str × Str)
  cookies : List (Str × Str)

/-- `jar.get(name)` on a cookie jar. -/
def cookieGet (jar : List (Str × Str)) (name : Str) : Option Str :=
  (jar.find? (fun p => p.1 == name)).map (fun p => p.2)

/-- Python truthiness of an optional string (`if not x:` fails for both
`None` and the empty string). -/
def truthy : Option Str → Bool
  | some v => ¬ v.isEmpty
  | none => false

/-- `f"{scheme}://{netloc}"` computed by `urlparse` on an absolute URL
(model: scheme is the part before the first `://`, netloc runs to the next
`/`, `?` or `#`). -/
def baseUrlOf (url : Str) : Str :=
  match pySplit (chars "://") url with
  | scheme :: rest :: _ =>
    scheme ++ chars "://" ++ rest.takeWhile (fun c => decide (c ≠ '/' ∧ c ≠ '?' ∧ c ≠ '#'))
  | _ => chars "://"

/-- Model of `AkamaiWeb._get_akamai_url` (akamai.py lines 46-72).  The
script-src regular expression is the spec's out-of-scope "pattern
extraction" capability and is abstracted as `find_src` (returning the
matched root-relative path, for which `urljoin` is concatenation onto
`scheme://netloc`). -/
def get_akamai_url (find_src : Str → Option Str) (html website_url : Str) :
    Option Str × Option Str :=
  match find_src html with
  | none => (none, none)
  | some path =>
    if path.isEmpty then (none, none)
    else
      let base := baseUrlOf website_url
      (some base, some (base ++ path))

/-- The environment of one Akamai-Web extraction run: the navigation
response, the script response, and the session cookie jar as it stands
after the script fetch. -/
structure WebEnv where
  resp1 : Resp
  resp2 : Resp
  sessionCookiesAfterScript : List (Str × Str)

structure WebResult where
  base_url : Str
  akamai_url : Str
  script_data : Str
  abck : Str
  bm_sz : Str

/-- Observable behaviour of one `AkamaiWeb.fetch_and_extract` call: the
returned dict (or None), how many GETs were issued, and the session state
at the moment the first GET goes out. -/
structure WebTrace where
  result : Option WebResult
  gets : Nat
  sessionAtFirstGet : Session

/-- The early-return chain of `AkamaiWeb.fetch_and_extract` (akamai.py
lines 126-181): result and number of GETs issued. -/
def akamaiWeb_core (find_src : Str → Option Str) (website_url : Str)
    (env : WebEnv) : Option WebResult × Nat :=
  let resp := env.resp1
  if resp.status_code ≠ 200 then (none, 1)
  else
    let pr := get_akamai_url find_src resp.text website_url
    if ¬ truthy pr.2 then (none, 1)
    else
      let abck := cookieGet resp.cookies (chars "_abck")
      if ¬ truthy abck then (none, 1)
      else
        let sresp := env.resp2
        if sresp.status_code ≠ 200 then (none, 2)
        else
          let bm_sz := cookieGet env.sessionCookiesAfterScript (chars "bm_sz")
          if ¬ truthy bm_sz then (none, 2)
          else
            (some ⟨pr.1.getD [], pr.2.getD [], sresp.text, abck.getD [], bm_sz.getD []⟩, 2)

/-- Model of `AkamaiWeb.fetch_and_extract` (akamai.py lines 74-181): the
session headers are cleared (line 105) before the first GET; the cookie jar
is whatever the session already held. -/
def akamaiWeb_fetch_and_extract (find_src : Str → Option Str)
    (website_url _user_agent : Str) (s0 : Session) (env : WebEnv) : WebTrace :=
  let s1 : Session := ⟨[], s0.cookies⟩
  let r := akamaiWeb_core find_src website_url env
  ⟨r.1, r.2, s1⟩

/-- The environment of one SBSD extraction run. -/
structure SbsdEnv where
  resp1 : Resp
  resp2 : Resp
  sessionCookiesAfterScript : List (Str × Str)

structure SbsdResult where
  base_url : Str
  sbsd_url : Str
  script_data : Str
  cookie_name : Str
  cookie_value : Str

structure SbsdTrace where
  result : Option SbsdResult
  gets : Nat
  sessionAtFirstGet : Session

/-- Model of `AkamaiSBSD.fetch_and_extract` (akamai.py lines 328-422); the
`/.well-known/sbsd/` script-tag pattern of `_get_sbsd_url` is abstracted as
`find_sbsd` (html and base url to the joined script URL). -/
def akamaiSBSD_core (find_sbsd : Str → Str → Option Str) (website_url : Str)
    (env : SbsdEnv) : Option SbsdResult × Nat :=
  if env.resp1.status_code ≠ 200 then (none, 1)
  else
    let base_url := baseUrlOf website_url
    match find_sbsd env.resp1.text base_url with
    | none => (none, 1)
    | some sbsd_url =>
      if sbsd_url.isEmpty then (none, 1)
      else if env.resp2.status_code ≠ 200 then (none, 2)
      else
        let cookies := env.sessionCookiesAfterScript
        let bm_so := cookieGet cookies (chars "bm_so")
        let sbsd_o := cookieGet cookies (chars "sbsd_o")
        if truthy bm_so then
          (some ⟨base_url, sbsd_url, env.resp2.text, chars "bm_so", bm_so.getD []⟩, 2)
        else if truthy sbsd_o then
          (some ⟨base_url, sbsd_url, env.resp2.text, chars "sbsd_o", sbsd_o.getD []⟩, 2)
        else (none, 2)

def akamaiSBSD_fetch_and_extract (find_sbsd : Str → Str → Option Str)
    (website_url _user_agent : Str) (s0 : Session) (env : SbsdEnv) : SbsdTrace :=
  let s1 : Session := ⟨[], s0.cookies⟩
  let r := akamaiSBSD_core find_sbsd website_url env
  ⟨r.1, r.2, s1⟩

/-- The standard base64 alphabet value of a character. -/
def b64Val (c : Char) : Option Nat :=
  if 'A' ≤ c ∧ c ≤ 'Z' then some (c.toNat - 65)
  else if 'a' ≤ c ∧ c ≤ 'z' then some (c.toNat - 71)
  else if '0' ≤ c ∧ c ≤ '9' then some (c.toNat + 4)
  else if c = '+' then some 62
  else if c = '/' then some 63
  else none

/-- Lenient base64 decoding loop (model of CPython `binascii.a2b_base64`
without strict mode): non-alphabet characters are skipped, `=` ends the
data once at least two characters of the current quad were seen, and input
ending with 1-3 leftover data characters is an error. -/
def b64Aux : Str → Nat → Nat → List Nat → Option (List Nat)
  | [], quadPos, _, out => if quadPos = 0 then some out.reverse else none
  | c :: rest, quadPos, leftchar, out =>
    if c = '=' ∧ 2 ≤ quadPos then some out.reverse
    else
      match b64Val c with
      | none => b64Aux rest quadPos leftchar out
      | some v =>
        match quadPos with
        | 0 => b64Aux rest 1 v out
        | 1 => b64Aux rest 2 ((leftchar * 64 + v) % 16) (((leftchar * 64 + v) / 16) :: out)
        | 2 => b64Aux rest 3 ((leftchar * 64 + v) % 4) (((leftchar * 64 + v) / 4) :: out)
        | _ => b64Aux rest 0 0 ((leftchar * 64 + v) :: out)

/-- Model of `base64.b64decode` on a str argument: the argument is first
ASCII-encoded (non-ASCII raises), then decoded leniently. -/
def pyB64Decode (s : Str) : Option (List Nat) :=
  if s.any (fun c => decide (127 < c.toNat)) then none
  else b64Aux s 0 0 []

/-- Strict UTF-8 decoding of a byte list (model of `bytes.decode("utf-8")`:
rejects truncated sequences, overlongs, surrogates and values beyond
U+10FFFF). -/
def utf8DecodeF : Nat → List Nat → Option Str
  | _, [] => some []
  | 0, _ :: _ => none
  | f + 1, b :: rest =>
    if b < 128 then (utf8DecodeF f rest).map (fun r => Char.ofNat b :: r)
    else if b < 194 then none
    else if b < 224 then
      match rest with
      | b2 :: r2 =>
        if 128 ≤ b2 ∧ b2 < 192 then
          (utf8DecodeF f r2).map (fun r => Char.ofNat ((b - 192) * 64 + (b2 - 128)) :: r)
        else none
      | [] => none
    else if b < 240 then
      match rest with
      | b2 :: b3 :: r2 =>
        if ((if b = 224 then 160 else 128) ≤ b2 ∧ b2 < (if b = 237 then 160 else 192))
            ∧ (128 ≤ b3 ∧ b3 < 192) then
          (utf8DecodeF f r2).map (fun r =>
            Char.ofNat (((b - 224) * 64 + (b2 - 128)) * 64 + (b3 - 128)) :: r)
        else none
      | _ => none
    else if b < 245 then
      match rest with
      | b2 :: b3 :: b4 :: r2 =>
        if ((if b = 240 then 144 else 128) ≤ b2 ∧ b2 < (if b = 244 then 144 else 192))
            ∧ (128 ≤ b3 ∧ b3 < 192) ∧ (128 ≤ b4 ∧ b4 < 192) then
          (utf8DecodeF f r2).map (fun r =>
            Char.ofNat ((((b - 240) * 64 + (b2 - 128)) * 64 + (b3 - 128)) * 64 + (b4 - 128)) :: r)
        else none
      | _ => none
    else none

def utf8Decode (bs : List Nat) : Option Str := utf8DecodeF bs.length bs

/-- `scheme://netloc/path` of a URL with the query string stripped
(akamai.py lines 462-464); model: cut at the first `?` or `#`. -/
def stripQuery (u : Str) : Str :=
  u.takeWhile (fun c => decide (c ≠ '?' ∧ c ≠ '#'))

/-- Environment of one `post_sbsd` call: the POST response and the session
cookie jar afterwards. -/
structure SbsdPostEnv where
  resp : Resp
  sessionCookiesAfterPost : List (Str × Str)

/-- Observable behaviour of `AkamaiSBSD.post_sbsd`: the returned value (an
uncaught exception would be `Except.error`; the code returns on every
path), the number of POSTs issued, and the body/URL actually posted. -/
structure SbsdPostTrace where
  result : Except PyErr (Option (List (Str × Str)))
  posts : Nat
  postedBody : Option Str
  postedUrl : Option Str

/-- The network part of `post_sbsd` once the payload has been decoded
(akamai.py lines 435-493). -/
def post_sbsd_decoded (decoded post_url : Str) (env : SbsdPostEnv) : SbsdPostTrace :=
  let stripped := stripQuery post_url
  if env.resp.status_code ≠ 200 then
    ⟨Except.ok none, 1, some decoded, some stripped⟩
  else if env.sessionCookiesAfterPost.isEmpty then
    ⟨Except.ok none, 1, some decoded, some stripped⟩
  else
    ⟨Except.ok (some env.sessionCookiesAfterPost), 1, some decoded, some stripped⟩

/-- UTF-8 stage of the `try: base64.b64decode(...).decode("utf-8")` of
`post_sbsd`; a failure is caught and returned as None with no POST. -/
def post_sbsd_bytes (bs : List Nat) (post_url : Str) (env : SbsdPostEnv) : SbsdPostTrace :=
  match utf8Decode bs with
  | none => ⟨Except.ok none, 0, none, none⟩
  | some decoded => post_sbsd_decoded decoded post_url env

/-- Model of `AkamaiSBSD.post_sbsd` (akamai.py lines 424-493). -/
def post_sbsd (sbsd_payload post_url _user_agent _website_url : Str)
    (env : SbsdPostEnv) : SbsdPostTrace :=
  match pyB64Decode sbsd_payload with
  | none => ⟨Except.ok none, 0, none, none⟩
  | some bs => post_sbsd_bytes bs post_url env

/-- Claim C6: Akamai-Web `fetch_and_extract` returns no result after the
single initial GET — never issuing the script GET — in each of the three
scenarios: non-200 initial status, no script-src pattern match in the html,
no `_abck` cookie set on the initial response. -/
theorem akamaiWeb_fetch_short_circuit (find_src : Str → Option Str)
    (website_url ua : Str) (s0 : Session) (env : WebEnv) :
    (env.resp1.status_code ≠ 200 →
      (akamaiWeb_fetch_and_extract find_src website_url ua s0 env).result = none
      ∧ (akamaiWeb_fetch_and_extract find_src website_url ua s0 env).gets = 1)
  ∧ (find_src env.resp1.text = none →
      (akamaiWeb_fetch_and_extract find_src website_url ua s0 env).result = none
      ∧ (akamaiWeb_fetch_and_extract find_src website_url ua s0 env).gets = 1)
  ∧ (cookieGet env.resp1.cookies (chars "_abck") = none →
      (akamaiWeb_fetch_and_extract find_src website_url ua s0 env).result = none
      ∧ (akamaiWeb_fetch_and_extract find_src website_url ua s0 env).gets = 1) := by
  refine ⟨?_, ?_, ?_⟩
  · intro h
    simp [akamaiWeb_fetch_and_extract, akamaiWeb_core, h]
  · intro h
    by_cases h200 : env.resp1.status_code ≠ 200
    · simp [akamaiWeb_fetch_and_extract, akamaiWeb_core, h200]
    · simp [akamaiWeb_fetch_and_extract, akamaiWeb_core, h200, get_akamai_url, h, truthy]
  · intro h
    by_cases h200 : env.resp1.status_code ≠ 200
    · simp [akamaiWeb_fetch_and_extract, akamaiWeb_core, h200]
    · cases hfs : find_src env.resp1.text with
      | none => simp [akamaiWeb_fetch_and_extract, akamaiWeb_core, h200, get_akamai_url, hfs, truthy]
      | some path =>
        by_cases hp : path.isEmpty
        · simp [akamaiWeb_fetch_and_extract, akamaiWeb_core, h200, get_akamai_url, hfs, hp, truthy]
        · have hpne : path ≠ [] := by
            intro hcon
            rw [List.isEmpty_iff] at hp
            exact hp hcon
          have hne : (baseUrlOf website_url ++ path).isEmpty = false := by
            rw [List.isEmpty_eq_false, Ne, List.append_eq_nil]
            intro hcon
            exact hpne hcon.2
          simp [akamaiWeb_fetch_and_extract, akamaiWeb_core, h200, get_akamai_url, hfs, hp, truthy, hne, h]

theorem akamaiWeb_fetch_short_circuit_witness :
    ((akamaiWeb_fetch_and_extract (fun _ => some (chars "/a")) (chars "https://t/")
        (chars "ua") ⟨[], []⟩ ⟨⟨500, [], []⟩, ⟨200, [], []⟩, []⟩).result = none
      ∧ (akamaiWeb_fetch_and_extract (fun _ => some (chars "/a")) (chars "https://t/")
        (chars "ua") ⟨[], []⟩ ⟨⟨500, [], []⟩, ⟨200, [], []⟩, []⟩).gets = 1)
  ∧ ((akamaiWeb_fetch_and_extract (fun _ => none) (chars "https://t/")
        (chars "ua") ⟨[], []⟩ ⟨⟨200, [], [(chars "_abck", chars "v")]⟩, ⟨200, [], []⟩, []⟩).result = none
      ∧ (akamaiWeb_fetch_and_extract (fun _ => none) (chars "https://t/")
        (chars "ua") ⟨[], []⟩ ⟨⟨200, [], [(chars "_abck", chars "v")]⟩, ⟨200, [], []⟩, []⟩).gets = 1)
  ∧ ((akamaiWeb_fetch_and_extract (fun _ => some (chars "/a")) (chars "https://t/")
        (chars "ua") ⟨[], []⟩ ⟨⟨200, [], []⟩, ⟨200, [], []⟩, []⟩).result = none
      ∧ (akamaiWeb_fetch_and_extract (fun _ => some (chars "/a")) (chars "https://t/")
        (chars "ua") ⟨[], []⟩ ⟨⟨200, [], []⟩, ⟨200, [], []⟩, []⟩).gets = 1) :=
  ⟨(akamaiWeb_fetch_short_circuit _ _ _ _ _).1 (by decide),
   (akamaiWeb_fetch_short_circuit _ _ _ _ _).2.1 rfl,
   (akamaiWeb_fetch_short_circuit _ _ _ _ _).2.2 rfl⟩

/-- Claim C8 counterexample: a fresh extraction run does not clear the
session cookie jar — a cookie left by a prior unrelated run is still in the
session when the first request of the new workflow goes out (only the
headers are cleared). -/
theorem fetch_keeps_prior_cookies_cex :
    (akamaiWeb_fetch_and_extract (fun _ => none) (chars "https://t/") (chars "ua")
        ⟨[(chars "h", chars "v")], [(chars "stale", chars "v")]⟩
        ⟨⟨500, [], []⟩, ⟨500, [], []⟩, []⟩).sessionAtFirstGet.cookies
      = [(chars "stale", chars "v")]
  ∧ (akamaiSBSD_fetch_and_extract (fun _ _ => none) (chars "https://t/") (chars "ua")
        ⟨[(chars "h", chars "v")], [(chars "stale", chars "v")]⟩
        ⟨⟨500, [], []⟩, ⟨500, [], []⟩, []⟩).sessionAtFirstGet.cookies
      = [(chars "stale", chars "v")] :=
  ⟨rfl, rfl⟩

/-- Claim C8 (amended): at the start of a fresh extraction run each
extractor clears only the session's headers; the cookie jar is carried over
unchanged into the first request of the new workflow. -/
theorem fetch_session_reset_headers_only (find_src : Str → Option Str)
    (find_sbsd : Str → Str → Option Str) (wu ua : Str) (s0 : Session)
    (envW : WebEnv) (envS : SbsdEnv) :
    (akamaiWeb_fetch_and_extract find_src wu ua s0 envW).sessionAtFirstGet
      = ⟨[], s0.cookies⟩
  ∧ (akamaiSBSD_fetch_and_extract find_sbsd wu ua s0 envS).sessionAtFirstGet
      = ⟨[], s0.cookies⟩ :=
  ⟨rfl, rfl⟩

/-- Claim C9 counterexample: a `bm_so` cookie that is present in the jar
but has an empty value is skipped (Python truthiness), so the extractor
returns the `sbsd_o` pair even though `bm_so` is present. -/
theorem sbsd_empty_bm_so_not_preferred_cex :
    cookieGet [(chars "bm_so", []), (chars "sbsd_o", chars "x")] (chars "bm_so")
      = some []
  ∧ cookieGet [(chars "bm_so", []), (chars "sbsd_o", chars "x")] (chars "sbsd_o")
      = some (chars "x")
  ∧ (akamaiSBSD_fetch_and_extract (fun _ _ => some (chars "/s"))
      (chars "https://t/p") (chars "ua") ⟨[], []⟩
      ⟨⟨200, [], []⟩, ⟨200, chars "S", []⟩,
       [(chars "bm_so", []), (chars "sbsd_o", chars "x")]⟩).result
      = some ⟨chars "https://t", chars "/s", chars "S", chars "sbsd_o", chars "x"⟩ :=
  ⟨rfl, rfl, rfl⟩

/-- Claim C9 (amended): after a successful SBSD script fetch, `bm_so` is
checked first: a non-empty `bm_so` value is returned as the cookie pair
regardless of `sbsd_o`; with `bm_so` absent or empty, a non-empty `sbsd_o`
is returned; with both absent or empty the extractor returns no result. -/
theorem sbsd_cookie_preference (find_sbsd : Str → Str → Option Str)
    (website_url ua : Str) (s0 : Session) (env : SbsdEnv) (u : Str)
    (h200a : env.resp1.status_code = 200)
    (hfs : find_sbsd env.resp1.text (baseUrlOf website_url) = some u)
    (hu : u.isEmpty = false)
    (h200b : env.resp2.status_code = 200) :
    (∀ v, cookieGet env.sessionCookiesAfterScript (chars "bm_so") = some v → v ≠ [] →
      (akamaiSBSD_fetch_and_extract find_sbsd website_url ua s0 env).result
        = some ⟨baseUrlOf website_url, u, env.resp2.text, chars "bm_so", v⟩)
  ∧ (∀ w, truthy (cookieGet env.sessionCookiesAfterScript (chars "bm_so")) = false →
      cookieGet env.sessionCookiesAfterScript (chars "sbsd_o") = some w → w ≠ [] →
      (akamaiSBSD_fetch_and_extract find_sbsd website_url ua s0 env).result
        = some ⟨baseUrlOf website_url, u, env.resp2.text, chars "sbsd_o", w⟩)
  ∧ (truthy (cookieGet env.sessionCookiesAfterScript (chars "bm_so")) = false →
      truthy (cookieGet env.sessionCookiesAfterScript (chars "sbsd_o")) = false →
      (akamaiSBSD_fetch_and_extract find_sbsd website_url ua s0 env).result = none) := by
  refine ⟨?_, ?_, ?_⟩
  · intro v hv hvne
    have htv : truthy (some v) = true := by
      simp [truthy, List.isEmpty_eq_false, hvne]
    simp [akamaiSBSD_fetch_and_extract, akamaiSBSD_core, h200a, hfs, hu, h200b, hv, htv]
  · intro w hbf hw hwne
    have htw : truthy (some w) = true := by
      simp [truthy, List.isEmpty_eq_false, hwne]
    simp [akamaiSBSD_fetch_and_extract, akamaiSBSD_core, h200a, hfs, hu, h200b, hbf, hw, htw]
  · intro hbf hsf
    simp [akamaiSBSD_fetch_and_extract, akamaiSBSD_core, h200a, hfs, hu, h200b, hbf, hsf]

theorem sbsd_cookie_preference_witness :
    (akamaiSBSD_fetch_and_extract (fun _ _ => some (chars "/s"))
      (chars "https://t/p") (chars "ua") ⟨[], []⟩
      ⟨⟨200, [], []⟩, ⟨200, chars "S", []⟩,
       [(chars "bm_so", chars "b"), (chars "sbsd_o", chars "x")]⟩).result
      = some ⟨chars "https://t", chars "/s", chars "S", chars "bm_so", chars "b"⟩ :=
  (sbsd_cookie_preference (fun _ _ => some (chars "/s")) (chars "https://t/p")
      (chars "ua") ⟨[], []⟩
      ⟨⟨200, [], []⟩, ⟨200, chars "S", []⟩,
       [(chars "bm_so", chars "b"), (chars "sbsd_o", chars "x")]⟩
      (chars "/s") rfl rfl rfl rfl).1 (chars "b") rfl (by decide)

/-- Claim C3 counterexample: `post_sbsd` given the invalid base64 payload
"A" returns None silently (no exception) and issues no POST — the decode
failure is swallowed, not raised. -/
theorem post_sbsd_invalid_base64_silent :
    pyB64Decode (chars "A") = none
  ∧ post_sbsd (chars "A") (chars "https://t/p?q=1") (chars "ua") (chars "https://t/")
      ⟨⟨200, [], []⟩, [(chars "c", chars "v")]⟩
      = ⟨Except.ok none, 0, none, none⟩ :=
  ⟨rfl, rfl⟩

/-- Claim C3 (amended): whenever the payload fails base64 decoding or the
decoded bytes are not valid UTF-8, `post_sbsd` returns None (it does not
raise — the exception is caught) and performs no network call. -/
theorem post_sbsd_decode_failure_no_network (payload post_url ua wu : Str)
    (env : SbsdPostEnv)
    (h : pyB64Decode payload = none ∨
      ∃ bs, pyB64Decode payload = some bs ∧ utf8Decode bs = none) :
    post_sbsd payload post_url ua wu env = ⟨Except.ok none, 0, none, none⟩ := by
  unfold post_sbsd
  cases hb : pyB64Decode payload with
  | none => rfl
  | some bs =>
    show post_sbsd_bytes bs post_url env = _
    unfold post_sbsd_bytes
    rcases h with h | ⟨bs', hbs', hu⟩
    · rw [hb] at h
      exact Option.noConfusion h
    · rw [hb] at hbs'
      injection hbs' with he
      subst he
      rw [hu]

theorem post_sbsd_decode_failure_witness :
    post_sbsd (chars "A") (chars "https://t/p") (chars "ua") (chars "https://t/")
      ⟨⟨200, [], []⟩, [(chars "c", chars "v")]⟩
      = ⟨Except.ok none, 0, none, none⟩ :=
  post_sbsd_decode_failure_no_network (chars "A") (chars "https://t/p")
    (chars "ua") (chars "https://t/") ⟨⟨200, [], []⟩, [(chars "c", chars "v")]⟩
    (Or.inl rfl)

theorem createTask_payload_fields_witness :
    (createTaskPayload (chars "Twitch_PublicIntegrity")
        [(chars "device_id", Json.str (chars "d"))]).map Prod.fst
      = [chars "type", chars "access_token", chars "proxy", chars "device_id"] :=
  (createTask_payload_fields [(chars "device_id", Json.str (chars "d"))]).2.1

theorem datadome_parse_error_conditions_witness :
    parse_slider_url (chars "<html>") (chars "D") (chars "https://x/")
      = Except.error (PyErr.runtimeError parseFailMsg) :=
  (datadome_parse_error_conditions (chars "<html>") (chars "D")
      (chars "https://x/")).1.mpr (Or.inl (by decide))

theorem fetch_session_reset_headers_only_witness :
    (akamaiWeb_fetch_and_extract (fun _ => none) (chars "https://t/") (chars "ua")
        ⟨[(chars "h", chars "v")], [(chars "c", chars "w")]⟩
        ⟨⟨500, [], []⟩, ⟨500, [], []⟩, []⟩).sessionAtFirstGet
      = ⟨[], [(chars "c", chars "w")]⟩ :=
  (fetch_session_reset_headers_only (fun _ => none) (fun _ _ => none)
      (chars "https://t/") (chars "ua")
      ⟨[(chars "h", chars "v")], [(chars "c", chars "w")]⟩
      ⟨⟨500, [], []⟩, ⟨500, [], []⟩, []⟩
      ⟨⟨500, [], []⟩, ⟨500, [], []⟩, []⟩).1
